import Mathlib

/-!
# Verification of the sanctions-radar signal aggregation pipeline

Shallow embedding of the repository's two scripts:

* the collector (`src/unnamed/part_000`, first document: the 11-query
  "CryptoThreat Radar" collector): `fetchData`, `saveData`, startup guard;
* the synthesizer (`src/scripts/generate-brief.js`): `callGitHubModel`,
  `extractEntities`, `generateFallbackBrief`, `generateBrief`.

JavaScript runtime behaviour that the scripts rely on is modelled explicitly:
`Date` parsing (restricted to the ISO-8601 strings the pipeline handles, with
everything else mapping to an invalid date / `NaN`), `Array.prototype.sort`
(a stable comparator sort; per ECMAScript `SortCompare`, a `NaN` comparator
result is treated as `+0`), string truthiness (`""` and `undefined` are
falsy), and `JSON.stringify` on the signal records (fields in insertion
order, `undefined` fields omitted).
-/

namespace SanctionsRadar

set_option maxRecDepth 8192

/-- A raw record returned by the external signal source
(`RawSignal` in the spec): known fields `timestamp`, `title`, `text`,
`source`, `url`, plus provider-specific string-valued fields kept in
`extra` (in their JSON insertion order).  `none` models an absent
(`undefined`) field. -/
structure RawSignal where
  timestamp : Option String
  title : Option String
  text : Option String
  source : Option String
  url : Option String
  extra : List (String × String)
deriving DecidableEq, Repr

/-- One entry of the collector's fixed query list: entity filter, topic
filter, category tag, severity tag (`QuerySpec`). -/
structure QuerySpec where
  entities : String
  topic : String
  category : String
  severity : String
deriving DecidableEq, Repr

/-- A raw signal after the collector's tagging loop
(`results.forEach(r => { r._category = ...; ... })`, lines 76–81): the
original record with the originating query's category, severity, entities
and topic appended as the fields `_category`, `_severity`, `_entities`,
`_topic`. -/
structure TaggedSignal where
  raw : RawSignal
  _category : String
  _severity : String
  _entities : String
  _topic : String
deriving DecidableEq, Repr

/-! ## JavaScript `Date` parsing

The collector compares entries with `new Date(b.timestamp) - new Date(a.timestamp)`.
We model `new Date(string).getTime()` on the ISO-8601 forms the pipeline
produces and consumes (`YYYY-MM-DD` and `YYYY-MM-DDTHH:MM:SS[.sss]Z`, the
`toISOString` shape): a valid string maps to `some` epoch milliseconds, and
everything else — including a missing (`undefined`) timestamp — maps to
`none`, standing for `NaN` (an Invalid Date). -/

/-- Value of a decimal-digit character list, or `none` if any character is
not a digit (or the list is empty). -/
def digitsToNat (cs : List Char) : Option Nat :=
  if cs ≠ [] ∧ cs.all Char.isDigit then
    some (cs.foldl (fun a c => a * 10 + (c.toNat - 48)) 0)
  else none

/-- Number of days in a month of a given (proleptic Gregorian) year. -/
def daysInMonth (y m : Nat) : Nat :=
  if m = 2 then
    if y % 4 = 0 ∧ (y % 100 ≠ 0 ∨ y % 400 = 0) then 29 else 28
  else if m = 4 ∨ m = 6 ∨ m = 9 ∨ m = 11 then 30
  else 31

/-- Days between 1970-01-01 and the given civil date (Gregorian calendar,
standard days-from-civil computation; negative before the epoch). -/
def daysFromCivil (y : Int) (m d : Nat) : Int :=
  let y2 : Int := if m ≤ 2 then y - 1 else y
  let era : Int := (if 0 ≤ y2 then y2 else y2 - 399) / 400
  let yoe : Int := y2 - era * 400
  let mp : Int := ((m : Int) + 9) % 12
  let doy : Int := (153 * mp + 2) / 5 + (d : Int) - 1
  let doe : Int := yoe * 365 + yoe / 4 - yoe / 100 + doy
  era * 146097 + doe - 719468

/-- Epoch milliseconds of a calendar date plus time-of-day fields. -/
def epochMillis (y m d h mi s ms : Nat) : Int :=
  daysFromCivil (y : Int) m d * 86400000
    + (h : Int) * 3600000 + (mi : Int) * 60000 + (s : Int) * 1000 + (ms : Int)

/-- Parse the time-of-day tail `HH:MM:SS[.sss]Z` of an ISO timestamp,
returning milliseconds into the day. -/
def parseTimeOfDay (cs : List Char) : Option Int :=
  match cs with
  | [h1, h2, ':', i1, i2, ':', s1, s2, 'Z'] =>
    match digitsToNat [h1, h2], digitsToNat [i1, i2], digitsToNat [s1, s2] with
    | some h, some mi, some s =>
      if h ≤ 23 ∧ mi ≤ 59 ∧ s ≤ 59 then
        some ((h : Int) * 3600000 + (mi : Int) * 60000 + (s : Int) * 1000)
      else none
    | _, _, _ => none
  | [h1, h2, ':', i1, i2, ':', s1, s2, '.', f1, f2, f3, 'Z'] =>
    match digitsToNat [h1, h2], digitsToNat [i1, i2], digitsToNat [s1, s2],
        digitsToNat [f1, f2, f3] with
    | some h, some mi, some s, some f =>
      if h ≤ 23 ∧ mi ≤ 59 ∧ s ≤ 59 then
        some ((h : Int) * 3600000 + (mi : Int) * 60000 + (s : Int) * 1000 + (f : Int))
      else none
    | _, _, _, _ => none
  | _ => none

/-- `new Date(s).getTime()` on the modelled ISO-8601 grammar: `some`
epoch-milliseconds for a valid timestamp, `none` (`NaN`) otherwise. -/
def jsParseDate (str : String) : Option Int :=
  match str.toList with
  | y1 :: y2 :: y3 :: y4 :: '-' :: m1 :: m2 :: '-' :: d1 :: d2 :: rest =>
    match digitsToNat [y1, y2, y3, y4], digitsToNat [m1, m2], digitsToNat [d1, d2] with
    | some y, some m, some d =>
      if 1 ≤ m ∧ m ≤ 12 ∧ 1 ≤ d ∧ d ≤ daysInMonth y m then
        match rest with
        | [] => some (daysFromCivil (y : Int) m d * 86400000)
        | 'T' :: time =>
          match parseTimeOfDay time with
          | some t => some (daysFromCivil (y : Int) m d * 86400000 + t)
          | none => none
        | _ => none
      else none
    | _, _, _ => none
  | _ => none

/-- `new Date(item.timestamp).getTime()` for a tagged signal: `none` models
`NaN` (field missing — `new Date(undefined)` — or unparseable string). -/
def jsTime (t : TaggedSignal) : Option Int :=
  match t.raw.timestamp with
  | none => none
  | some s => jsParseDate s

/-! ## `Array.prototype.sort` with the collector's comparator

`saveData` sorts with `(a, b) => new Date(b.timestamp) - new Date(a.timestamp)`.
When either date is invalid the subtraction is `NaN`, and ECMAScript's
`SortCompare` treats a `NaN` comparator result as `+0` (the two elements
compare as equal).  ES2019+ requires the sort to be stable; for a comparator
that is inconsistent (as this one is when invalid dates are mixed with
distinct valid ones) the resulting order is implementation-defined, and we
model the stable insertion behaviour of the engines' short-array path:
each element sinks from the end of the sorted prefix past exactly the
elements the comparator places after it. -/

/-- The comparator passed to `sort`, after `SortCompare`'s `NaN ↦ +0`
normalisation: `time(b) - time(a)`, or `0` if either date is invalid. -/
def jsComparator (a b : TaggedSignal) : Int :=
  match jsTime a, jsTime b with
  | some ta, some tb => tb - ta
  | _, _ => 0

/-- Insert `x` into the reversed sorted prefix `racc` (last element first):
`x` sinks past every element `y` with `comparator(y, x) > 0` and lands
before the first one with `comparator(y, x) ≤ 0` — stable insertion. -/
def sinkInto (x : TaggedSignal) : List TaggedSignal → List TaggedSignal
  | [] => [x]
  | y :: ys => if jsComparator y x > 0 then y :: sinkInto x ys else x :: y :: ys

/-- The whole sort: fold the input through stable insertion, keeping the
accumulator reversed, and reverse at the end. -/
def jsSort (l : List TaggedSignal) : List TaggedSignal :=
  (l.foldl (fun racc x => sinkInto x racc) []).reverse

/-! ## `JSON.stringify` on a tagged signal

Used as the fallback deduplication key (`item.url || JSON.stringify(item)`).
Fields appear in insertion order — the raw record's fields first (known
fields, then provider-specific extras), then the four tag fields appended by
the tagging loop — and `undefined` (absent) fields are omitted. -/

/-- JSON string escaping (quote and backslash; the pipeline's strings
contain no control characters). -/
def jsonEscape (s : String) : String :=
  String.join (s.toList.map fun c =>
    if c = '"' then "\\\"" else if c = '\\' then "\\\\" else String.singleton c)

/-- One `"name":"value"` member. -/
def jsonMember (name value : String) : String :=
  "\"" ++ jsonEscape name ++ "\":\"" ++ jsonEscape value ++ "\""

/-- The present (non-`undefined`) members of a tagged signal, in insertion
order. -/
def jsonMembers (t : TaggedSignal) : List String :=
  ((["timestamp", "title", "text", "source", "url"].zip
      [t.raw.timestamp, t.raw.title, t.raw.text, t.raw.source, t.raw.url]).filterMap
    (fun p => p.2.map (jsonMember p.1)))
  ++ t.raw.extra.map (fun p => jsonMember p.1 p.2)
  ++ [jsonMember "_category" t._category, jsonMember "_severity" t._severity,
      jsonMember "_entities" t._entities, jsonMember "_topic" t._topic]

/-- `JSON.stringify(item)` for a tagged signal. -/
def jsonStringify (t : TaggedSignal) : String :=
  "\x7b" ++ String.intercalate "," (jsonMembers t) ++ "\x7d"

/-! ## Deduplication and `saveData` -/

/-- The deduplication key `item.url || JSON.stringify(item)`: the URL when
present and non-empty (JS truthiness), otherwise the full-content
serialization. -/
def dedupKey (t : TaggedSignal) : String :=
  match t.raw.url with
  | some u => if u = "" then jsonStringify t else u
  | none => jsonStringify t

/-- The `seen`-set filter of `saveData`: keep an entry iff its key has not
been seen before, accumulating keys into `seen`. -/
def dedupFilter (seen : List String) : List TaggedSignal → List TaggedSignal
  | [] => []
  | x :: xs =>
    if dedupKey x ∈ seen then dedupFilter seen xs
    else x :: dedupFilter (dedupKey x :: seen) xs

/-- `saveData` (collector lines 93–107): sort by timestamp descending, then
keep the first occurrence of each deduplication key.  The returned list is
the persisted EventSet (written as JSON to `data/events.json`). -/
def saveData (data : List TaggedSignal) : List TaggedSignal :=
  dedupFilter [] (jsSort data)

/-! ## `fetchData` and the collector entry point -/

/-- A response body after `response.json()`: either a JSON array of raw
signals or some non-array value. -/
inductive Body where
  | arr (items : List RawSignal)
  | nonArray
deriving DecidableEq, Repr

/-- Outcome of one query's `fetch`: a thrown transport/decode error, a
non-success HTTP status (`!response.ok`), or a decoded body. -/
inductive QueryResponse where
  | transportError
  | httpError (status : Nat)
  | success (body : Body)
deriving DecidableEq, Repr

/-- The fixed query list of the collector (lines 28–44). -/
def queries : List QuerySpec :=
  [⟨"cryptocurrency exchanges", "sanctions", "sanctions", "critical"⟩,
   ⟨"cryptocurrency services", "regulatory enforcement", "regulatory", "high"⟩,
   ⟨"DeFi protocols", "sanctions evasion", "sanctions-evasion", "critical"⟩,
   ⟨"cryptocurrency mixers", "money laundering", "money-laundering", "critical"⟩,
   ⟨"cryptocurrency exchanges", "cyberattack", "cyberattack", "critical"⟩,
   ⟨"DeFi protocols", "exploit", "exploit", "critical"⟩,
   ⟨"cryptocurrency projects", "rug pull", "rug-pull", "high"⟩,
   ⟨"cryptocurrency exchanges", "wash trading", "wash-trading", "high"⟩,
   ⟨"cryptocurrency markets", "market manipulation", "market-manipulation", "high"⟩,
   ⟨"cryptocurrency", "fraud", "fraud", "high"⟩,
   ⟨"cryptocurrency", "phishing attack", "phishing", "medium"⟩]

/-- The tagging loop body: decorate a raw signal with its query's metadata,
leaving every raw field untouched. -/
def tagSignal (q : QuerySpec) (r : RawSignal) : TaggedSignal :=
  ⟨r, q.category, q.severity, q.entities, q.topic⟩

/-- What one loop iteration of `fetchData` contributes to `allResults`:
a thrown error or a non-success status is caught/skipped (`continue`),
a non-array body is defensively decoded to `[]`
(`Array.isArray(data) ? data : []`), and an array body is tagged. -/
def handleQuery (q : QuerySpec) (resp : QueryResponse) : List TaggedSignal :=
  match resp with
  | .transportError => []
  | .httpError _ => []
  | .success .nonArray => []
  | .success (.arr items) => items.map (tagSignal q)

/-- A per-query outcome that contributes no results: a thrown
transport/decode error, a non-success HTTP status, or a payload that is
not an array. -/
def isFailureOutcome : QueryResponse → Bool
  | .success (.arr _) => false
  | _ => true

/-- `fetchData` (lines 25–91), with the network abstracted as a map from
query to response: run the queries in order, appending each one's
contribution to `allResults`. -/
def fetchData (env : QuerySpec → QueryResponse) (qs : List QuerySpec) :
    List TaggedSignal :=
  qs.foldl (fun acc q => acc ++ handleQuery q (env q)) []

/-- JS truthiness of an environment variable: `undefined` (`none`) and the
empty string are falsy. -/
def jsTruthy : Option String → Bool
  | none => false
  | some s => s ≠ ""

/-- The collector process (lines 4–9 and 109–120): if `RAPIDAPI_KEY` is
falsy the process exits with status 1 before issuing any query or writing
any output; otherwise it fetches, saves, and returns the persisted
EventSet.  The first component records which queries were issued. -/
def collectorRun (apiKey : Option String) (env : QuerySpec → QueryResponse) :
    List QuerySpec × Except Nat (List TaggedSignal) :=
  if jsTruthy apiKey then
    (queries, .ok (saveData (fetchData env queries)))
  else
    ([], .error 1)

/-! ## The synthesizer (`src/scripts/generate-brief.js`)

The three model passes go through `callGitHubModel`, which returns `null`
without making a network request when `GITHUB_TOKEN` is falsy, and `null`
on a non-success status or a thrown error.  Passes 1 and 3 then JSON-parse
the reply (after stripping code fences) and fall back on parse failure; we
model each pass's network-and-decode outcome as a `ModelResult`, with the
fence-stripping and the JSON grammar of the reply abstracted into the
environment. -/

/-- One entry of the model-extracted entity watchlist. -/
structure Entity where
  name : String
  type : String
  risk : String
  mentions : Nat
deriving DecidableEq, Repr

/-- One entry of the model-extracted threat list. -/
structure Threat where
  type : String
  severity : String
  summary : String
  affected_entities : List String
deriving DecidableEq, Repr

/-- The JSON object pass 1 expects from the model.  `trend` and `top_risk`
are optional because the code reads them with plain property access and
tolerates their absence (`entityData.trend`, `entityData.top_risk`). -/
structure EntityData where
  entities : List Entity
  threats : List Threat
  trend : Option String
  top_risk : Option String
deriving DecidableEq, Repr

/-- Outcome of one model call combined with the decoding of its reply:
the call produced nothing (`callGitHubModel` returned `null` — missing
token, non-success status, or thrown error), produced text that failed to
parse against the expected shape, or produced a decoded value. -/
inductive ModelResult (α : Type) where
  | unavailable
  | unparseable
  | parsed (val : α)
deriving DecidableEq, Repr

/-- Whether a pass outcome failed to deliver a decoded value. -/
def ModelResult.failed {α : Type} : ModelResult α → Bool
  | .parsed _ => false
  | _ => true

/-- `callGitHubModel` (lines 19–40) at the transport level: with a falsy
`GITHUB_TOKEN` it returns `null` immediately; otherwise it returns the
service's reply content, or `null` if the request failed. -/
def callGitHubModel (token : Option String) (reply : Option String) :
    Option String :=
  if jsTruthy token then reply else none

/-- JS `a || b` on an optional string: the string when truthy, else the
default. -/
def jsOrStr (a : Option String) (b : String) : String :=
  match a with
  | some s => if s = "" then b else s
  | none => b

/-- First-occurrence distinct strings, preserving order — the behaviour of
`new Set(...)` spread into an array, and of JS object key insertion. -/
def jsSetList (l : List String) : List String :=
  go [] l
where
  go (seen : List String) : List String → List String
    | [] => []
    | x :: xs => if x ∈ seen then go seen xs else x :: go (x :: seen) xs

/-- The grouping key `e._category || "general"`. -/
def groupCat (e : TaggedSignal) : String :=
  if e._category = "" then "general" else e._category

/-- `byCategory[c]?.length || 0`: the number of events grouped under
category key `c`. -/
def categoryCount (events : List TaggedSignal) (c : String) : Nat :=
  (events.filter (fun e => groupCat e = c)).length

/-- `extractEntities` (lines 45–77): on an empty event list it returns
`{ entities: [], threats: [] }` immediately — no `trend`, no `top_risk`,
and no model call; otherwise it makes one model call and, when the call or
the JSON parse fails, returns the parse-failure fallback object.  The
second component counts the `callGitHubModel` invocations made. -/
def extractEntities (call : ModelResult EntityData)
    (events : List TaggedSignal) : EntityData × Nat :=
  if events.length = 0 then (⟨[], [], none, none⟩, 0)
  else
    match call with
    | .parsed d => (d, 1)
    | _ => (⟨[], [], some "stable", some "Insufficient data for analysis"⟩, 1)

/-- The count-threshold risk label of the fallback brief (line 188). -/
def fallbackRiskLevel (count : Nat) : String :=
  if count > 15 then "critical"
  else if count > 8 then "high"
  else if count > 3 then "medium"
  else "low"

/-- The count-threshold risk score of the fallback brief (line 189). -/
def fallbackRiskScore (count : Nat) : Nat :=
  if count > 15 then 8 else if count > 8 then 6 else if count > 3 then 4 else 2

/-- The data interpolated into the deterministic fallback brief template
(`generateFallbackBrief`, lines 179–224); the constant HTML around these
values is elided. -/
structure FallbackBrief where
  periodStart : String
  periodEnd : String
  count : Nat
  categoryCount : Nat
  riskLevel : String
  riskScore : Nat
  criticalItems : List TaggedSignal
  sanctionsCount : Nat
  regulatoryCount : Nat
  cyberattackCount : Nat
  exploitCount : Nat
  washTradingCount : Nat
  rugPullCount : Nat
  manipulationCount : Nat
deriving DecidableEq, Repr

/-- `generateFallbackBrief`: the locally computed, deterministic report
content. -/
def generateFallbackBrief (events : List TaggedSignal)
    (weekAgo dateStr : String) : FallbackBrief :=
  { periodStart := weekAgo
    periodEnd := dateStr
    count := events.length
    categoryCount := (jsSetList (events.map groupCat)).length
    riskLevel := fallbackRiskLevel events.length
    riskScore := fallbackRiskScore events.length
    criticalItems := (events.filter (fun e => e._severity = "critical")).take 5
    sanctionsCount := categoryCount events "sanctions"
    regulatoryCount := categoryCount events "regulatory"
    cyberattackCount := categoryCount events "cyberattack"
    exploitCount := categoryCount events "exploit"
    washTradingCount := categoryCount events "wash-trading"
    rugPullCount := categoryCount events "rug-pull"
    manipulationCount := categoryCount events "market-manipulation" }

/-- The report body placed in the page and in `latest-brief.json`: either
the model's narrative HTML or the rendered fallback template (carried as
its interpolated data). -/
inductive BriefDoc where
  | fromModel (html : String)
  | fallback (fb : FallbackBrief)
deriving DecidableEq, Repr

/-- The deterministic fallback tweet (lines 174–176). -/
def fallbackTweet (weekAgo dateStr : String) (count : Nat) : String :=
  "🚨 Weekly CryptoThreat Radar Brief (" ++ weekAgo ++ " → " ++ dateStr
    ++ ")\n\n" ++ toString count
    ++ " threat signals detected across the crypto ecosystem.\n\nFull report: https://athena-os-2026.github.io/sanctions-radar/\n\n#CryptoCompliance #Web3Security"

/-- The report body chosen by `generateBrief` (lines 893–897): pass 2's
reply when the call delivered non-empty content (`generateMainBrief`
returns `null` when `callGitHubModel` does), otherwise the deterministic
fallback template. -/
def chosenBriefDoc (token : Option String) (reply : Option String)
    (events : List TaggedSignal) (weekAgo dateStr : String) : BriefDoc :=
  match callGitHubModel token reply with
  | none => BriefDoc.fallback (generateFallbackBrief events weekAgo dateStr)
  | some s =>
    if s = "" then BriefDoc.fallback (generateFallbackBrief events weekAgo dateStr)
    else BriefDoc.fromModel s

/-- `generateSocialContent` (lines 148–177): the decoded tweet array when
the call and its JSON parse succeed, otherwise the single deterministic
fallback tweet. -/
def generateSocialContent (token : Option String)
    (call : ModelResult (List String)) (events : List TaggedSignal)
    (weekAgo dateStr : String) : List String :=
  match (if jsTruthy token then call else .unavailable) with
  | .parsed arr => arr
  | _ => [fallbackTweet weekAgo dateStr events.length]

/-- The structured record written to `data/latest-brief.json` (lines
912–922); the generation timestamp (a clock read) is elided. -/
structure LatestBrief where
  periodStart : String
  periodEnd : String
  eventCount : Nat
  threatCategories : List String
  entities : List Entity
  trend : Option String
  topRisk : Option String
  socialThread : List String
  briefDoc : BriefDoc
deriving DecidableEq, Repr

/-- The dynamic data interpolated into the rendered `index.html`
(`buildPage`, lines 226–871); the constant HTML/CSS around it is elided. -/
structure PageData where
  totalSignals : Nat
  criticalCount : Nat
  highCount : Nat
  categoryCount : Nat
  uniqueSources : Nat
  entitiesTracked : Nat
  briefDoc : BriefDoc
  tweets : List String
deriving DecidableEq, Repr

/-- The statistics `buildPage` computes from the events. -/
def buildPageData (events : List TaggedSignal) (entityData : EntityData)
    (social : List String) (brief : BriefDoc) : PageData :=
  { totalSignals := events.length
    criticalCount := (events.filter (fun e => e._severity = "critical")).length
    highCount := (events.filter (fun e => e._severity = "high")).length
    categoryCount := (jsSetList (events.map groupCat)).length
    uniqueSources := (jsSetList (events.filterMap (fun e =>
      match e.raw.source with
      | some s => if s = "" then none else some s
      | none => none))).length
    entitiesTracked := entityData.entities.length
    briefDoc := brief
    tweets := social }

/-- The replies the external text-generation service would give to the
three passes of one run: pass 2's reply is the narrative content after
fence-stripping (`null` when the request failed). -/
structure SynthEnv where
  pass1 : ModelResult EntityData
  pass2 : Option String
  pass3 : ModelResult (List String)

/-- Both artifacts of a synthesizer run, plus the number of model calls
pass 1 made. -/
structure SynthOutput where
  latest : LatestBrief
  page : PageData
  pass1Calls : Nat
deriving Repr

/-- `generateBrief` (lines 873–925): read the EventSet — a missing or
unreadable file is caught and treated as an empty list — run the three
passes (each degrading independently: pass 1 to its fallback object, pass
2 to `generateFallbackBrief` whenever the reply is `null` or empty, pass 3
to the single fallback tweet), then build the page and the structured
record. -/
def generateBrief (token : Option String) (env : SynthEnv)
    (file : Option (List TaggedSignal)) (weekAgo dateStr : String) :
    SynthOutput :=
  let events := match file with
    | none => []
    | some evs => evs
  let p1 := if jsTruthy token then env.pass1 else .unavailable
  let ed := extractEntities p1 events
  let entityData := ed.1
  let briefDoc := chosenBriefDoc token env.pass2 events weekAgo dateStr
  let social := generateSocialContent token env.pass3 events weekAgo dateStr
  { latest :=
      { periodStart := weekAgo
        periodEnd := dateStr
        eventCount := events.length
        threatCategories := jsSetList (events.map (fun e => e._category))
        entities := entityData.entities
        trend := entityData.trend
        topRisk := entityData.top_risk
        socialThread := social
        briefDoc := briefDoc }
    page := buildPageData events entityData social briefDoc
    pass1Calls := ed.2 }


/-! ## Concrete queries and signals used in counterexamples and witnesses -/

/-- The first QuerySpec of the fixed list (category `"sanctions"`). -/
def qSanctions : QuerySpec :=
  ⟨"cryptocurrency exchanges", "sanctions", "sanctions", "critical"⟩

/-- The sixth QuerySpec of the fixed list (category `"exploit"`). -/
def qExploit : QuerySpec :=
  ⟨"DeFi protocols", "exploit", "exploit", "critical"⟩

/-- A parseable-timestamp signal dated 2024-01-01, URL `https://a`. -/
def sigJan1 : TaggedSignal :=
  ⟨⟨some "2024-01-01", some "exchange sanctioned", none, some "wire",
    some "https://a", []⟩, "sanctions", "critical",
    "cryptocurrency exchanges", "sanctions"⟩

/-- A signal whose timestamp string `"not-a-date"` is unparseable
(`new Date` yields an Invalid Date), URL `https://b`. -/
def sigBadTs : TaggedSignal :=
  ⟨⟨some "not-a-date", some "mixer report", none, some "wire",
    some "https://b", []⟩, "fraud", "high", "cryptocurrency", "fraud"⟩

/-- A parseable-timestamp signal dated 2024-01-02, URL `https://c`. -/
def sigJan2 : TaggedSignal :=
  ⟨⟨some "2024-01-02", some "protocol exploited", none, some "wire",
    some "https://c", []⟩, "exploit", "critical", "DeFi protocols",
    "exploit"⟩

/-- A sanctions-tagged signal dated 2024-01-01 with URL `https://x/1`. -/
def dupJan1 : TaggedSignal :=
  ⟨⟨some "2024-01-01", some "OFAC designation", none, some "wire",
    some "https://x/1", []⟩, "sanctions", "critical",
    "cryptocurrency exchanges", "sanctions"⟩

/-- An exploit-tagged signal dated 2024-01-02 with the same URL
`https://x/1`. -/
def dupJan2 : TaggedSignal :=
  ⟨⟨some "2024-01-02", some "bridge drained", none, some "wire",
    some "https://x/1", []⟩, "exploit", "critical", "DeFi protocols",
    "exploit"⟩

/-- A URL-less raw signal as the provider would return it to two distinct
queries. -/
def rawNoUrl : RawSignal :=
  ⟨some "2024-01-03", some "laundering through mixer", none, some "wire",
    none, [("chain", "ethereum")]⟩

/-- A URL-carrying raw signal used in witnesses. -/
def rawWithUrl : RawSignal :=
  ⟨some "2024-01-01", some "exchange sanctioned", none, some "wire",
    some "https://x/1", []⟩

/-- A second URL-carrying raw signal (same URL, later timestamp). -/
def rawWithUrl2 : RawSignal :=
  ⟨some "2024-01-02", some "bridge drained", none, some "wire",
    some "https://x/1", []⟩

/-- An environment in which every query fails in transport. -/
def envAllFail : QuerySpec → QueryResponse :=
  fun _ => .transportError

/-- An environment in which every query succeeds with an empty array. -/
def envAllEmpty : QuerySpec → QueryResponse :=
  fun _ => .success (.arr [])

/-- An environment in which the sanctions query returns one raw signal and
every other query fails. -/
def envOneHit : QuerySpec → QueryResponse :=
  fun q => if q = qSanctions then .success (.arr [rawWithUrl]) else .transportError

/-- A synthesizer environment in which pass 1 and pass 3 return
unparseable text and pass 2's call fails. -/
def synthEnvFail : SynthEnv :=
  ⟨.unparseable, none, .unparseable⟩

/-! ## Basic lemmas about the sort -/

/-- The parsed timestamp with invalid dates read as time zero (the reading
the spec ascribes to missing/unparseable timestamps). -/
def timeD (t : TaggedSignal) : Int :=
  (jsTime t).getD 0

theorem sinkInto_perm (x : TaggedSignal) (racc : List TaggedSignal) :
    (sinkInto x racc).Perm (x :: racc) := by
  induction racc with
  | nil => simp [sinkInto]
  | cons y ys ih =>
    by_cases h : jsComparator y x > 0
    · simp only [sinkInto, if_pos h]
      exact ((ih.cons y).trans (List.Perm.swap x y ys))
    · simp [sinkInto, if_neg h]

theorem foldl_sink_perm (l : List TaggedSignal) :
    ∀ racc, (l.foldl (fun r x => sinkInto x r) racc).Perm (racc ++ l) := by
  induction l with
  | nil => intro racc; simp
  | cons x xs ih =>
    intro racc
    simp only [List.foldl_cons]
    refine (ih (sinkInto x racc)).trans ?_
    have h1 : (sinkInto x racc ++ xs).Perm ((x :: racc) ++ xs) :=
      (sinkInto_perm x racc).append_right xs
    refine h1.trans ?_
    have hmid : (racc ++ x :: xs).Perm (x :: (racc ++ xs)) :=
      List.perm_middle
    simpa using hmid.symm

theorem jsSort_perm (l : List TaggedSignal) : (jsSort l).Perm l := by
  unfold jsSort
  refine (List.reverse_perm _).trans ?_
  simpa using foldl_sink_perm l []

theorem mem_jsSort {l : List TaggedSignal} {x : TaggedSignal} :
    x ∈ jsSort l ↔ x ∈ l :=
  (jsSort_perm l).mem_iff

theorem jsComparator_pos_iff {y x : TaggedSignal}
    (hy : (jsTime y).isSome) (hx : (jsTime x).isSome) :
    jsComparator y x > 0 ↔ timeD y < timeD x := by
  rcases Option.isSome_iff_exists.mp hy with ⟨ty, hty⟩
  rcases Option.isSome_iff_exists.mp hx with ⟨tx, htx⟩
  simp [jsComparator, timeD, hty, htx]

theorem sinkInto_sorted {x : TaggedSignal} {racc : List TaggedSignal}
    (hx : (jsTime x).isSome) (hracc : ∀ z ∈ racc, (jsTime z).isSome)
    (hs : racc.Pairwise (fun a b => timeD a ≤ timeD b)) :
    (sinkInto x racc).Pairwise (fun a b => timeD a ≤ timeD b) := by
  induction racc with
  | nil => simp [sinkInto]
  | cons y ys ih =>
    have hy : (jsTime y).isSome := hracc y (by simp)
    have hys : ∀ z ∈ ys, (jsTime z).isSome := fun z hz => hracc z (by simp [hz])
    rcases List.pairwise_cons.mp hs with ⟨hyall, hys'⟩
    by_cases h : jsComparator y x > 0
    · simp only [sinkInto, if_pos h]
      refine List.pairwise_cons.mpr ⟨?_, ih hys hys'⟩
      intro z hz
      have hz' : z ∈ x :: ys := (sinkInto_perm x ys).subset hz
      rcases List.mem_cons.mp hz' with rfl | hz''
      · exact le_of_lt ((jsComparator_pos_iff hy hx).mp h)
      · exact hyall z hz''
    · simp only [sinkInto, if_neg h]
      have hxy : timeD x ≤ timeD y := by
        have := (jsComparator_pos_iff hy hx).not.mp h
        omega
      refine List.pairwise_cons.mpr ⟨?_, hs⟩
      intro z hz
      rcases List.mem_cons.mp hz with rfl | hz'
      · exact hxy
      · exact le_trans hxy (hyall z hz')

theorem foldl_sink_sorted {l : List TaggedSignal}
    (hl : ∀ z ∈ l, (jsTime z).isSome) :
    ∀ racc, (∀ z ∈ racc, (jsTime z).isSome) →
      racc.Pairwise (fun a b => timeD a ≤ timeD b) →
      (l.foldl (fun r x => sinkInto x r) racc).Pairwise
        (fun a b => timeD a ≤ timeD b) := by
  induction l with
  | nil => intro racc _ hs; simpa using hs
  | cons x xs ih =>
    intro racc hracc hs
    have hx : (jsTime x).isSome := hl x (by simp)
    have hxs : ∀ z ∈ xs, (jsTime z).isSome := fun z hz => hl z (by simp [hz])
    simp only [List.foldl_cons]
    refine ih hxs (sinkInto x racc) ?_ (sinkInto_sorted hx hracc hs)
    intro z hz
    rcases List.mem_cons.mp ((sinkInto_perm x racc).subset hz) with rfl | hz'
    · exact hx
    · exact hracc z hz'

/-- With every timestamp parseable, the code's sort is descending: each
element's time is at least the time of everything after it. -/
theorem jsSort_sorted {l : List TaggedSignal}
    (hl : ∀ z ∈ l, (jsTime z).isSome) :
    (jsSort l).Pairwise (fun a b => timeD b ≤ timeD a) := by
  unfold jsSort
  rw [List.pairwise_reverse]
  exact foldl_sink_sorted hl [] (by simp) (by simp)

/-! ## Basic lemmas about the deduplication filter -/

theorem dedupFilter_subset {seen : List String} {l : List TaggedSignal} :
    ∀ y ∈ dedupFilter seen l, y ∈ l := by
  induction l generalizing seen with
  | nil => simp [dedupFilter]
  | cons x xs ih =>
    intro y hy
    by_cases h : dedupKey x ∈ seen
    · simp only [dedupFilter, if_pos h] at hy
      exact List.mem_cons_of_mem x (ih y hy)
    · simp only [dedupFilter, if_neg h] at hy
      rcases List.mem_cons.mp hy with rfl | hy'
      · simp
      · exact List.mem_cons_of_mem x (ih y hy')

theorem dedupFilter_key_not_seen {seen : List String} {l : List TaggedSignal} :
    ∀ y ∈ dedupFilter seen l, dedupKey y ∉ seen := by
  induction l generalizing seen with
  | nil => simp [dedupFilter]
  | cons x xs ih =>
    intro y hy
    by_cases h : dedupKey x ∈ seen
    · simp only [dedupFilter, if_pos h] at hy
      exact ih y hy
    · simp only [dedupFilter, if_neg h] at hy
      rcases List.mem_cons.mp hy with rfl | hy'
      · exact h
      · have := ih y hy'
        intro hc
        exact this (List.mem_cons_of_mem _ hc)

/-- Entries surviving deduplication have pairwise distinct keys. -/
theorem dedupFilter_keys_pairwise (seen : List String) (l : List TaggedSignal) :
    (dedupFilter seen l).Pairwise (fun a b => dedupKey a ≠ dedupKey b) := by
  induction l generalizing seen with
  | nil => simp [dedupFilter]
  | cons x xs ih =>
    by_cases h : dedupKey x ∈ seen
    · simpa only [dedupFilter, if_pos h] using ih seen
    · simp only [dedupFilter, if_neg h]
      refine List.pairwise_cons.mpr ⟨?_, ih _⟩
      intro y hy hc
      exact dedupFilter_key_not_seen y hy (by simp [hc])

/-- Every key present in the input is represented among the survivors. -/
theorem dedupFilter_exists_key {l : List TaggedSignal} {x : TaggedSignal} :
    ∀ seen, x ∈ l → dedupKey x ∉ seen →
      ∃ y ∈ dedupFilter seen l, dedupKey y = dedupKey x := by
  induction l with
  | nil => simp
  | cons z zs ih =>
    intro seen hx hns
    rcases List.mem_cons.mp hx with rfl | hx'
    · refine ⟨x, ?_, rfl⟩
      simp [dedupFilter, if_neg hns]
    · by_cases h : dedupKey z ∈ seen
      · rcases ih seen hx' hns with ⟨y, hy, hk⟩
        exact ⟨y, by simp [dedupFilter, if_pos h, hy], hk⟩
      · by_cases hk : dedupKey x = dedupKey z
        · exact ⟨z, by simp [dedupFilter, if_neg h], hk.symm⟩
        · have hns' : dedupKey x ∉ dedupKey z :: seen := by
            simp [hk, hns]
          rcases ih (dedupKey z :: seen) hx' hns' with ⟨y, hy, hky⟩
          exact ⟨y, by simp [dedupFilter, if_neg h, hy], hky⟩

/-- A survivor is the first entry of the list carrying its key: the list
splits into a key-free prefix, the survivor, and a tail. -/
theorem dedupFilter_first {seen : List String} {l : List TaggedSignal}
    {y : TaggedSignal} (hy : y ∈ dedupFilter seen l) :
    ∃ l1 l2, l = l1 ++ y :: l2 ∧ ∀ a ∈ l1, dedupKey a ≠ dedupKey y := by
  induction l generalizing seen with
  | nil => simp [dedupFilter] at hy
  | cons z zs ih =>
    by_cases h : dedupKey z ∈ seen
    · simp only [dedupFilter, if_pos h] at hy
      rcases ih hy with ⟨l1, l2, hsplit, hfree⟩
      refine ⟨z :: l1, l2, by simp [hsplit], ?_⟩
      intro a ha
      rcases List.mem_cons.mp ha with rfl | ha'
      · intro hc
        exact dedupFilter_key_not_seen y hy (hc ▸ h)
      · exact hfree a ha'
    · simp only [dedupFilter, if_neg h] at hy
      rcases List.mem_cons.mp hy with rfl | hy'
      · exact ⟨[], zs, rfl, by simp⟩
      · rcases ih hy' with ⟨l1, l2, hsplit, hfree⟩
        refine ⟨z :: l1, l2, by simp [hsplit], ?_⟩
        intro a ha
        rcases List.mem_cons.mp ha with rfl | ha'
        · intro hc
          have := dedupFilter_key_not_seen y hy'
          exact this (by simp [hc])
        · exact hfree a ha'

/-- In a list sorted under `r`, a dedup survivor relates by `r` to every
other entry of the list that shares its key. -/
theorem dedupFilter_survivor {r : TaggedSignal → TaggedSignal → Prop}
    {s : List TaggedSignal} (hs : s.Pairwise r) {y : TaggedSignal}
    (hy : y ∈ dedupFilter [] s) :
    ∀ a ∈ s, dedupKey a = dedupKey y → a = y ∨ r y a := by
  rcases dedupFilter_first hy with ⟨l1, l2, rfl, hfree⟩
  intro a ha hk
  rcases List.mem_append.mp ha with h1 | h2
  · exact absurd hk (hfree a h1)
  · rcases List.mem_cons.mp h2 with rfl | h3
    · exact Or.inl rfl
    · rcases List.pairwise_append.mp hs with ⟨_, hcons, _⟩
      exact Or.inr ((List.pairwise_cons.mp hcons).1 a h3)

/-! ## Derived facts about `saveData` -/

theorem saveData_subset {l : List TaggedSignal} :
    ∀ y ∈ saveData l, y ∈ l := by
  intro y hy
  exact mem_jsSort.mp (dedupFilter_subset y hy)

theorem saveData_keys_pairwise (l : List TaggedSignal) :
    (saveData l).Pairwise (fun a b => dedupKey a ≠ dedupKey b) :=
  dedupFilter_keys_pairwise [] (jsSort l)

theorem saveData_exists_key {l : List TaggedSignal} {x : TaggedSignal}
    (hx : x ∈ l) : ∃ y ∈ saveData l, dedupKey y = dedupKey x :=
  dedupFilter_exists_key [] (mem_jsSort.mpr hx) (by simp)

/-- With all timestamps parseable, a persisted entry's timestamp dominates
the timestamp of every input entry sharing its key. -/
theorem saveData_survivor_ge {l : List TaggedSignal}
    (hl : ∀ z ∈ l, (jsTime z).isSome) {y : TaggedSignal}
    (hy : y ∈ saveData l) {a : TaggedSignal} (ha : a ∈ l)
    (hk : dedupKey a = dedupKey y) : timeD a ≤ timeD y := by
  have hsorted := jsSort_sorted hl
  have := dedupFilter_survivor hsorted hy a (mem_jsSort.mpr ha) hk
  rcases this with rfl | hle
  · exact le_refl _
  · exact hle

/-- Two distinct persisted entries never share a key. -/
theorem saveData_key_inj {l : List TaggedSignal} {a b : TaggedSignal}
    (ha : a ∈ saveData l) (hb : b ∈ saveData l) (hne : a ≠ b) :
    dedupKey a ≠ dedupKey b :=
  (saveData_keys_pairwise l).forall (fun _ _ h => Ne.symm h) ha hb hne

theorem dedupFilter_sublist (seen : List String) (l : List TaggedSignal) :
    (dedupFilter seen l).Sublist l := by
  induction l generalizing seen with
  | nil => simp [dedupFilter]
  | cons x xs ih =>
    by_cases h : dedupKey x ∈ seen
    · simp only [dedupFilter, if_pos h]
      exact (ih seen).cons x
    · simp only [dedupFilter, if_neg h]
      exact (ih _).cons₂ x

/-- `fetchData` is the concatenation, in query order, of what each query
contributes. -/
theorem fetchData_eq_join (env : QuerySpec → QueryResponse)
    (qs : List QuerySpec) :
    fetchData env qs = (qs.map (fun q => handleQuery q (env q))).flatten := by
  suffices h : ∀ (qs : List QuerySpec) (acc : List TaggedSignal),
      qs.foldl (fun a q => a ++ handleQuery q (env q)) acc
        = acc ++ (qs.map (fun q => handleQuery q (env q))).flatten by
    simpa using h qs []
  intro qs
  induction qs with
  | nil => simp
  | cons q qs ih =>
    intro acc
    simp [ih, List.append_assoc]

/-! ## Claim C2 -/

/-- C2, counterexample.  The claim says every produced EventSet is
descending under "missing/unparseable timestamp behaves as time zero and
sorts last".  On the input `[Jan 1, unparseable, Jan 2]` the comparator
returns `NaN` (treated as equality) against the middle entry, the engine's
stable sort leaves the list untouched, and the persisted EventSet has the
Jan 1 entry before the Jan 2 entry: adjacent order is violated and the
unparseable entry is not last. -/
theorem c2_counterexample :
    saveData [sigJan1, sigBadTs, sigJan2] = [sigJan1, sigBadTs, sigJan2] ∧
    jsTime sigBadTs = none ∧
    (jsTime sigJan2).isSome = true ∧
    ¬ (saveData [sigJan1, sigBadTs, sigJan2]).Pairwise
        (fun a b => timeD b ≤ timeD a) := by
  refine ⟨by decide, by decide, by decide, ?_⟩
  intro h
  rw [show saveData [sigJan1, sigBadTs, sigJan2]
      = [sigJan1, sigBadTs, sigJan2] from by decide] at h
  have := (List.pairwise_cons.mp h).1 sigJan2 (by simp)
  revert this
  decide

/-- C2, amended: when every timestamp in the input parses, the persisted
EventSet is sorted by timestamp descending (each entry's time is at least
that of every later entry); an entry with a missing or unparseable
timestamp instead makes the comparator return `NaN`, which the sort treats
as equality, so such entries keep their relative position rather than
sorting last, and the descending guarantee holds only for all-parseable
inputs; no input makes `saveData` error. -/
theorem saveData_sorted_of_parseable {data : List TaggedSignal}
    (hp : ∀ t ∈ data, (jsTime t).isSome) :
    (saveData data).Pairwise (fun a b => timeD b ≤ timeD a) :=
  (jsSort_sorted hp).sublist (dedupFilter_sublist [] (jsSort data))

/-- C2, witness: the amended theorem applied to a concrete two-element
input given in ascending order. -/
theorem saveData_sorted_of_parseable_witness :
    (saveData [sigJan1, sigJan2]).Pairwise (fun a b => timeD b ≤ timeD a) :=
  saveData_sorted_of_parseable (by decide)

/-! ## Claim C1 -/

/-- C1, counterexample.  Two entries share the non-empty URL
`https://x/1`, with timestamps Jan 1 and Jan 2; an unparseable-timestamp
entry sits between them, so the engine's sort leaves the sequence in place
and first-seen-wins keeps the *earlier* record, dropping the later one —
against the claim's "the later-or-equal timestamp survives". -/
theorem c1_counterexample :
    dupJan1.raw.url = some "https://x/1" ∧
    dupJan2.raw.url = some "https://x/1" ∧
    jsTime dupJan1 = some 1704067200000 ∧
    jsTime dupJan2 = some 1704153600000 ∧
    saveData [dupJan1, sigBadTs, dupJan2] = [dupJan1, sigBadTs] ∧
    dupJan2 ∉ saveData [dupJan1, sigBadTs, dupJan2] := by
  refine ⟨rfl, rfl, by decide, by decide, by decide, ?_⟩
  rw [show saveData [dupJan1, sigBadTs, dupJan2] = [dupJan1, sigBadTs] from by decide]
  decide

/-- C1, amended: the deduplication key is the URL when present and
non-empty, else the full-content serialization; the persisted EventSet
never holds two entries with the same key, and two distinct entries with
the same non-empty URL never both survive.  When every timestamp of the
input parses, the surviving entry for that URL carries a timestamp at
least that of every input entry with that key (the later-or-equal
timestamp wins); with unparseable timestamps in the input the survivor is
merely the first under the code's sort order. -/
theorem saveData_url_dedup {l : List TaggedSignal}
    (hp : ∀ t ∈ l, (jsTime t).isSome) {a b : TaggedSignal} {u : String}
    (ha : a ∈ l) (hb : b ∈ l)
    (hua : a.raw.url = some u) (hub : b.raw.url = some u) (hu : u ≠ "") :
    (saveData l).Pairwise (fun x y => dedupKey x ≠ dedupKey y) ∧
    (a ≠ b → ¬ (a ∈ saveData l ∧ b ∈ saveData l)) ∧
    ∃ y ∈ saveData l, dedupKey y = u ∧ timeD a ≤ timeD y ∧ timeD b ≤ timeD y ∧
      ∀ z ∈ saveData l, dedupKey z = u → z = y := by
  have hka : dedupKey a = u := by simp [dedupKey, hua, hu]
  have hkb : dedupKey b = u := by simp [dedupKey, hub, hu]
  refine ⟨saveData_keys_pairwise l, ?_, ?_⟩
  · rintro hne ⟨haS, hbS⟩
    exact saveData_key_inj haS hbS hne (hka.trans hkb.symm)
  · rcases saveData_exists_key ha with ⟨y, hyS, hky⟩
    refine ⟨y, hyS, hky.trans hka, ?_, ?_, ?_⟩
    · exact saveData_survivor_ge hp hyS ha hky.symm
    · exact saveData_survivor_ge hp hyS hb (by rw [hkb, ← hka, hky])
    · intro z hzS hkz
      by_contra hne
      exact saveData_key_inj hzS hyS hne (by rw [hkz, hky, hka])

/-- C1, witness: the amended theorem applied to the two same-URL records
with parseable timestamps Jan 1 / Jan 2. -/
theorem saveData_url_dedup_witness :
    (saveData [dupJan1, dupJan2]).Pairwise
      (fun x y => dedupKey x ≠ dedupKey y) ∧
    (dupJan1 ≠ dupJan2 →
      ¬ (dupJan1 ∈ saveData [dupJan1, dupJan2] ∧
         dupJan2 ∈ saveData [dupJan1, dupJan2])) ∧
    ∃ y ∈ saveData [dupJan1, dupJan2], dedupKey y = "https://x/1" ∧
      timeD dupJan1 ≤ timeD y ∧ timeD dupJan2 ≤ timeD y ∧
      ∀ z ∈ saveData [dupJan1, dupJan2], dedupKey z = "https://x/1" → z = y :=
  saveData_url_dedup (by decide) (by decide) (by decide) rfl rfl (by decide)

/-- The persisted EventSet holds no entry twice: distinct positions have
distinct keys, and equal entries have equal keys. -/
theorem saveData_nodup (l : List TaggedSignal) : (saveData l).Nodup :=
  (saveData_keys_pairwise l).imp fun h => by
    intro hc
    exact h (by rw [hc])

/-! ## Claim C3 -/

/-- C3, counterexample.  The same URL-less raw signal returned identically
by the sanctions query and the exploit query yields two tagged copies that
differ only in their appended tag fields; their full-content
serializations differ, so the persisted EventSet keeps *both* — not the
"exactly one entry" the claim asserts for a signal returned identically by
two different QuerySpecs. -/
theorem c3_counterexample :
    (tagSignal qSanctions rawNoUrl).raw = (tagSignal qExploit rawNoUrl).raw ∧
    rawNoUrl.url = none ∧
    tagSignal qSanctions rawNoUrl ≠ tagSignal qExploit rawNoUrl ∧
    saveData [tagSignal qSanctions rawNoUrl, tagSignal qExploit rawNoUrl]
      = [tagSignal qSanctions rawNoUrl, tagSignal qExploit rawNoUrl] := by
  exact ⟨rfl, rfl, by decide, by decide⟩

/-- C3, amended: with a shared non-empty URL the two tagged copies
collapse — at most one of them survives and exactly one entry with that
key persists.  Without a URL the key is the full-content serialization of
the *tagged* entry, so the two copies produced by two different QuerySpecs
differ in their tag fields and both survive; only signals identical in
full content (tags included) collapse to a single entry, and signals
differing in any field both survive (stated via the hypothesis that no
other input entry shares their serialization keys). -/
theorem saveData_content_dedup {l : List TaggedSignal} {a b : TaggedSignal}
    (ha : a ∈ l) (hb : b ∈ l) :
    (∀ u, a.raw.url = some u → b.raw.url = some u → u ≠ "" →
      (a ≠ b → ¬ (a ∈ saveData l ∧ b ∈ saveData l)) ∧
      ∃ y ∈ saveData l, dedupKey y = u) ∧
    ((∀ x ∈ l, dedupKey x = dedupKey a → x = a) →
     (∀ x ∈ l, dedupKey x = dedupKey b → x = b) →
      a ∈ saveData l ∧ b ∈ saveData l ∧
      (saveData l).count a = 1 ∧ (saveData l).count b = 1) := by
  constructor
  · intro u hua hub hu
    have hka : dedupKey a = u := by simp [dedupKey, hua, hu]
    have hkb : dedupKey b = u := by simp [dedupKey, hub, hu]
    constructor
    · rintro hne ⟨haS, hbS⟩
      exact saveData_key_inj haS hbS hne (hka.trans hkb.symm)
    · rcases saveData_exists_key ha with ⟨y, hyS, hky⟩
      exact ⟨y, hyS, hky.trans hka⟩
  · intro hKa hKb
    have hmema : a ∈ saveData l := by
      rcases saveData_exists_key ha with ⟨y, hyS, hky⟩
      have : y = a := hKa y (saveData_subset y hyS) hky
      exact this ▸ hyS
    have hmemb : b ∈ saveData l := by
      rcases saveData_exists_key hb with ⟨y, hyS, hky⟩
      have : y = b := hKb y (saveData_subset y hyS) hky
      exact this ▸ hyS
    exact ⟨hmema, hmemb,
      List.count_eq_one_of_mem (saveData_nodup l) hmema,
      List.count_eq_one_of_mem (saveData_nodup l) hmemb⟩

/-- C3, witness: the amended theorem applied to the two tagged copies of
the URL-less raw signal; both survive, each exactly once. -/
theorem saveData_content_dedup_witness :
    tagSignal qSanctions rawNoUrl ∈
      saveData [tagSignal qSanctions rawNoUrl, tagSignal qExploit rawNoUrl] ∧
    tagSignal qExploit rawNoUrl ∈
      saveData [tagSignal qSanctions rawNoUrl, tagSignal qExploit rawNoUrl] ∧
    (saveData [tagSignal qSanctions rawNoUrl, tagSignal qExploit rawNoUrl]).count
      (tagSignal qSanctions rawNoUrl) = 1 ∧
    (saveData [tagSignal qSanctions rawNoUrl, tagSignal qExploit rawNoUrl]).count
      (tagSignal qExploit rawNoUrl) = 1 :=
  (saveData_content_dedup (by decide) (by decide)).2 (by decide) (by decide)

/-! ## Claim C4 -/

/-- C4: the spec's example scenario.  The sanctions query and the exploit
query each return one record with the same non-empty URL, the sanctions
one timestamped earlier (`t1 < t2`, both parseable); whatever the
accumulation order of the two tagged records, the persisted EventSet is
exactly the exploit-tagged record: one entry for that URL, carrying the
later timestamp and the exploit query's tags. -/
theorem saveData_example_scenario (ra rb : RawSignal) (u : String)
    (t1 t2 : Int) (l : List TaggedSignal)
    (hl : l = [tagSignal qSanctions ra, tagSignal qExploit rb] ∨
          l = [tagSignal qExploit rb, tagSignal qSanctions ra])
    (hua : ra.url = some u) (hub : rb.url = some u) (hu : u ≠ "")
    (ht1 : jsTime (tagSignal qSanctions ra) = some t1)
    (ht2 : jsTime (tagSignal qExploit rb) = some t2)
    (hlt : t1 < t2) :
    saveData l = [tagSignal qExploit rb] ∧
    (tagSignal qExploit rb)._category = "exploit" ∧
    (tagSignal qExploit rb)._severity = "critical" ∧
    (tagSignal qExploit rb).raw = rb ∧
    jsTime (tagSignal qExploit rb) = some t2 ∧
    qSanctions ∈ queries ∧ qExploit ∈ queries := by
  have hcmp1 : jsComparator (tagSignal qSanctions ra) (tagSignal qExploit rb)
      = t2 - t1 := by
    simp [jsComparator, ht1, ht2]
  have hcmp2 : jsComparator (tagSignal qExploit rb) (tagSignal qSanctions ra)
      = t1 - t2 := by
    simp [jsComparator, ht1, ht2]
  have hkb : dedupKey (tagSignal qExploit rb) = u := by
    simp [dedupKey, tagSignal, hub, hu]
  have hka : dedupKey (tagSignal qSanctions ra) = u := by
    simp [dedupKey, tagSignal, hua, hu]
  refine ⟨?_, rfl, rfl, rfl, ht2, by decide, by decide⟩
  rcases hl with rfl | rfl
  · have : jsComparator (tagSignal qSanctions ra) (tagSignal qExploit rb) > 0 := by
      rw [hcmp1]; omega
    simp [saveData, jsSort, sinkInto, this, dedupFilter, hkb, hka]
  · have : ¬ jsComparator (tagSignal qExploit rb) (tagSignal qSanctions ra) > 0 := by
      rw [hcmp2]; omega
    simp [saveData, jsSort, sinkInto, this, dedupFilter, hkb, hka]

/-- C4, witness: the scenario theorem applied to two concrete records with
URL `https://x/1`, timestamps Jan 1 and Jan 2 of 2024. -/
theorem saveData_example_scenario_witness :
    saveData [tagSignal qSanctions rawWithUrl, tagSignal qExploit rawWithUrl2]
      = [tagSignal qExploit rawWithUrl2] ∧
    (tagSignal qExploit rawWithUrl2)._category = "exploit" ∧
    (tagSignal qExploit rawWithUrl2)._severity = "critical" ∧
    (tagSignal qExploit rawWithUrl2).raw = rawWithUrl2 ∧
    jsTime (tagSignal qExploit rawWithUrl2) = some 1704153600000 ∧
    qSanctions ∈ queries ∧ qExploit ∈ queries :=
  saveData_example_scenario rawWithUrl rawWithUrl2 "https://x/1"
    1704067200000 1704153600000 _ (Or.inl rfl) rfl rfl (by decide)
    (by decide) (by decide) (by decide)

/-! ## Claim C5 -/

/-- C5: a per-query failure (thrown transport error, non-success HTTP
status) or a non-array payload contributes zero results; removing a
failing query from the middle of the list leaves the other queries'
contributions untouched (the run is never aborted); and when every query
fails, the collector still persists a valid, empty EventSet. -/
theorem fetchData_failure_isolation :
    (∀ (q : QuerySpec) (r : QueryResponse),
       isFailureOutcome r = true → handleQuery q r = []) ∧
    (∀ (env : QuerySpec → QueryResponse) (qs1 : List QuerySpec)
       (q : QuerySpec) (qs2 : List QuerySpec),
       isFailureOutcome (env q) = true →
       fetchData env (qs1 ++ q :: qs2)
         = fetchData env qs1 ++ fetchData env qs2) ∧
    (∀ (env : QuerySpec → QueryResponse) (qs : List QuerySpec),
       (∀ q ∈ qs, isFailureOutcome (env q) = true) →
       fetchData env qs = [] ∧ saveData (fetchData env qs) = []) := by
  have hhandle : ∀ (q : QuerySpec) (r : QueryResponse),
      isFailureOutcome r = true → handleQuery q r = [] := by
    intro q r h
    cases r with
    | transportError => rfl
    | httpError s => rfl
    | success body =>
      cases body with
      | nonArray => rfl
      | arr items => simp [isFailureOutcome] at h
  refine ⟨hhandle, ?_, ?_⟩
  · intro env qs1 q qs2 h
    rw [fetchData_eq_join, fetchData_eq_join, fetchData_eq_join]
    simp [hhandle q (env q) h]
  · intro env qs h
    have hf : fetchData env qs = [] := by
      rw [fetchData_eq_join]
      induction qs with
      | nil => rfl
      | cons q qs ih =>
        simp only [List.map_cons, List.flatten_cons]
        rw [hhandle q (env q) (h q (by simp)), ih (fun q hq => h q (by simp [hq]))]
        rfl
    exact ⟨hf, by rw [hf]; rfl⟩

/-- C5, witness: with every query failing in transport, the run still
produces (and persists) the empty EventSet. -/
theorem fetchData_failure_isolation_witness :
    fetchData envAllFail queries = [] ∧
    saveData (fetchData envAllFail queries) = [] :=
  fetchData_failure_isolation.2.2 envAllFail queries (by decide)

/-! ## Claim C6 -/

/-- C6: a missing signal-source credential makes the collector exit with
status 1 having issued no query and produced no EventSet, while a missing
text-generation credential never fails the synthesizer: `callGitHubModel`
returns `null` for every call and the run completes on the deterministic
fallbacks (fallback brief, fallback tweet, empty entity list). -/
theorem credential_guard_asymmetry :
    (∀ env : QuerySpec → QueryResponse,
       collectorRun none env = ([], .error 1)) ∧
    (∀ reply : Option String, callGitHubModel none reply = none) ∧
    (∀ (env : SynthEnv) (file : Option (List TaggedSignal)) (w d : String),
       (generateBrief none env file w d).latest.briefDoc
         = .fallback (generateFallbackBrief (file.getD []) w d) ∧
       (generateBrief none env file w d).latest.socialThread
         = [fallbackTweet w d (file.getD []).length] ∧
       (generateBrief none env file w d).latest.entities = []) := by
  refine ⟨fun env => rfl, fun reply => rfl, fun env file w d => ?_⟩
  cases file with
  | none =>
    exact ⟨rfl, rfl, rfl⟩
  | some evs =>
    refine ⟨rfl, rfl, ?_⟩
    by_cases h : evs.length = 0
    · simp [generateBrief, extractEntities, h, jsTruthy]
    · simp [generateBrief, extractEntities, h, jsTruthy]

/-! ## Claim C7 -/

/-- C7: every raw signal fetched for a query is tagged with exactly that
query's category, severity, entity filter and topic filter, with the raw
record — provider-specific `extra` fields included — kept unchanged, and
every entry of the persisted EventSet is exactly such a tagged copy of a
fetched raw signal. -/
theorem tagging_preserves_fields (env : QuerySpec → QueryResponse)
    (qs : List QuerySpec) :
    (∀ (q : QuerySpec) (r : RawSignal),
       (tagSignal q r).raw = r ∧
       (tagSignal q r)._category = q.category ∧
       (tagSignal q r)._severity = q.severity ∧
       (tagSignal q r)._entities = q.entities ∧
       (tagSignal q r)._topic = q.topic ∧
       (tagSignal q r).raw.extra = r.extra) ∧
    (∀ q ∈ qs, ∀ (items : List RawSignal), env q = .success (.arr items) →
       ∀ r ∈ items, tagSignal q r ∈ fetchData env qs) ∧
    (∀ e ∈ saveData (fetchData env qs),
       ∃ q ∈ qs, ∃ items, env q = .success (.arr items) ∧
         ∃ r ∈ items, e = tagSignal q r) := by
  refine ⟨fun q r => ⟨rfl, rfl, rfl, rfl, rfl, rfl⟩, ?_, ?_⟩
  · intro q hq items hresp r hr
    rw [fetchData_eq_join]
    refine List.mem_flatten.mpr
      ⟨handleQuery q (env q), List.mem_map_of_mem _ hq, ?_⟩
    rw [hresp]
    exact List.mem_map_of_mem _ hr
  · intro e he
    have he2 : e ∈ fetchData env qs := saveData_subset e he
    rw [fetchData_eq_join] at he2
    rcases List.mem_flatten.mp he2 with ⟨piece, hpiece, hepiece⟩
    rcases List.mem_map.mp hpiece with ⟨q, hq, rfl⟩
    cases hresp : env q with
    | transportError =>
      rw [hresp] at hepiece
      simp [handleQuery] at hepiece
    | httpError s =>
      rw [hresp] at hepiece
      simp [handleQuery] at hepiece
    | success body =>
      cases body with
      | nonArray =>
        rw [hresp] at hepiece
        simp [handleQuery] at hepiece
      | arr items =>
        rw [hresp] at hepiece
        rcases List.mem_map.mp hepiece with ⟨r, hr, rfl⟩
        exact ⟨q, hq, items, hresp, r, hr, rfl⟩

/-- C7, witness: in an environment where the sanctions query returns one
raw signal and every other query fails, that signal's tagged copy is in
the accumulated results. -/
theorem tagging_preserves_fields_witness :
    tagSignal qSanctions rawWithUrl ∈ fetchData envOneHit queries :=
  (tagging_preserves_fields envOneHit queries).2.1 qSanctions (by decide)
    [rawWithUrl] (by decide) rawWithUrl (by decide)

/-! ## Helper lemmas for the synthesizer claims -/

theorem chosenBriefDoc_fallback {token reply : Option String}
    (h : jsTruthy token = false ∨ reply = none ∨ reply = some "")
    (events : List TaggedSignal) (w d : String) :
    chosenBriefDoc token reply events w d
      = .fallback (generateFallbackBrief events w d) := by
  rcases h with h | h | h
  · simp [chosenBriefDoc, callGitHubModel, h]
  · cases htok : jsTruthy token <;>
      simp [chosenBriefDoc, callGitHubModel, htok, h]
  · cases htok : jsTruthy token <;>
      simp [chosenBriefDoc, callGitHubModel, htok, h]

theorem generateSocialContent_fallback {token : Option String}
    {call : ModelResult (List String)}
    (h : jsTruthy token = false ∨ call.failed = true)
    (events : List TaggedSignal) (w d : String) :
    generateSocialContent token call events w d
      = [fallbackTweet w d events.length] := by
  rcases h with h | h
  · simp [generateSocialContent, h]
  · cases htok : jsTruthy token
    · simp [generateSocialContent, htok]
    · cases call with
      | unavailable => simp [generateSocialContent, htok]
      | unparseable => simp [generateSocialContent, htok]
      | parsed arr => simp [ModelResult.failed] at h

theorem extractEntities_entities_nil {call : ModelResult EntityData}
    (h : call.failed = true) (events : List TaggedSignal) :
    (extractEntities call events).1.entities = [] := by
  by_cases he : events.length = 0
  · simp [extractEntities, he]
  · cases call with
    | unavailable => simp [extractEntities, he]
    | unparseable => simp [extractEntities, he]
    | parsed d => simp [ModelResult.failed] at h

/-! ## Claim C8 -/

/-- C8: whenever the three external passes fail — the token is falsy, the
call fails (`null` reply), or the reply does not parse / is empty — the
synthesizer still produces both artifacts, with the deterministic fallback
brief and fallback tweet, and a missing or unreadable EventSet file is
treated as an empty EventSet rather than an error. -/
theorem generateBrief_fallback_completeness (token : Option String)
    (env : SynthEnv) (file : Option (List TaggedSignal)) (w d : String)
    (h1 : jsTruthy token = false ∨ env.pass1.failed = true)
    (h2 : jsTruthy token = false ∨ env.pass2 = none ∨ env.pass2 = some "")
    (h3 : jsTruthy token = false ∨ env.pass3.failed = true) :
    (generateBrief token env file w d).latest.briefDoc
      = .fallback (generateFallbackBrief (file.getD []) w d) ∧
    (generateBrief token env file w d).page.briefDoc
      = .fallback (generateFallbackBrief (file.getD []) w d) ∧
    (generateBrief token env file w d).latest.socialThread
      = [fallbackTweet w d (file.getD []).length] ∧
    (generateBrief token env file w d).page.tweets
      = [fallbackTweet w d (file.getD []).length] ∧
    (generateBrief token env file w d).latest.entities = [] ∧
    (generateBrief token env file w d).latest.eventCount
      = (file.getD []).length ∧
    (generateBrief token env file w d).page.totalSignals
      = (file.getD []).length ∧
    (file = none → (generateBrief token env file w d).latest.eventCount = 0) := by
  have heff1 : (if jsTruthy token then env.pass1
      else ModelResult.unavailable).failed = true := by
    rcases h1 with h | h
    · simp [h, ModelResult.failed]
    · cases htok : jsTruthy token
      · simp [htok, ModelResult.failed]
      · simpa [htok, ModelResult.failed] using h
  cases file with
  | none =>
    exact ⟨chosenBriefDoc_fallback h2 [] w d,
      chosenBriefDoc_fallback h2 [] w d,
      generateSocialContent_fallback h3 [] w d,
      generateSocialContent_fallback h3 [] w d,
      extractEntities_entities_nil heff1 [],
      rfl, rfl, fun _ => rfl⟩
  | some evs =>
    exact ⟨chosenBriefDoc_fallback h2 evs w d,
      chosenBriefDoc_fallback h2 evs w d,
      generateSocialContent_fallback h3 evs w d,
      generateSocialContent_fallback h3 evs w d,
      extractEntities_entities_nil heff1 evs,
      rfl, rfl, fun hc => by cases hc⟩

/-- C8, witness: a present token with all three passes failing and a
missing EventSet file still yields the complete pair of artifacts with
fallback content. -/
theorem generateBrief_fallback_completeness_witness :
    (generateBrief (some "ghp") synthEnvFail none "2025-10-04" "2025-10-11").latest.briefDoc
      = .fallback (generateFallbackBrief [] "2025-10-04" "2025-10-11") ∧
    (generateBrief (some "ghp") synthEnvFail none "2025-10-04" "2025-10-11").page.briefDoc
      = .fallback (generateFallbackBrief [] "2025-10-04" "2025-10-11") ∧
    (generateBrief (some "ghp") synthEnvFail none "2025-10-04" "2025-10-11").latest.socialThread
      = [fallbackTweet "2025-10-04" "2025-10-11" 0] ∧
    (generateBrief (some "ghp") synthEnvFail none "2025-10-04" "2025-10-11").page.tweets
      = [fallbackTweet "2025-10-04" "2025-10-11" 0] ∧
    (generateBrief (some "ghp") synthEnvFail none "2025-10-04" "2025-10-11").latest.entities = [] ∧
    (generateBrief (some "ghp") synthEnvFail none "2025-10-04" "2025-10-11").latest.eventCount = 0 ∧
    (generateBrief (some "ghp") synthEnvFail none "2025-10-04" "2025-10-11").page.totalSignals = 0 ∧
    ((none : Option (List TaggedSignal)) = none →
      (generateBrief (some "ghp") synthEnvFail none "2025-10-04" "2025-10-11").latest.eventCount = 0) :=
  generateBrief_fallback_completeness (some "ghp") synthEnvFail none
    "2025-10-04" "2025-10-11" (by decide) (by decide) (by decide)

/-! ## Claim C9 -/

/-- C9: when every query succeeds with an empty array the EventSet is
empty; the synthesizer's record then states zero signals, and (with the
narrative pass failing) the report body is the deterministic fallback,
whose count-threshold rule assigns risk level `"low"` and risk score `2`
to any count of at most 3 — in particular to the zero-signal run. -/
theorem empty_run_low_risk (env : QuerySpec → QueryResponse)
    (qs : List QuerySpec) (token : Option String) (senv : SynthEnv)
    (w d : String)
    (hzero : ∀ q ∈ qs, env q = .success (.arr []))
    (h2 : jsTruthy token = false ∨ senv.pass2 = none ∨ senv.pass2 = some "") :
    fetchData env qs = [] ∧
    saveData (fetchData env qs) = [] ∧
    (generateBrief token senv (some (saveData (fetchData env qs))) w d).latest.eventCount = 0 ∧
    (generateBrief token senv (some (saveData (fetchData env qs))) w d).latest.briefDoc
      = .fallback (generateFallbackBrief [] w d) ∧
    (generateFallbackBrief [] w d).count = 0 ∧
    (generateFallbackBrief [] w d).riskLevel = "low" ∧
    (generateFallbackBrief [] w d).riskScore = 2 ∧
    (∀ n : Nat, n ≤ 3 → fallbackRiskLevel n = "low" ∧ fallbackRiskScore n = 2) := by
  have hf : fetchData env qs = [] := by
    rw [fetchData_eq_join]
    induction qs with
    | nil => rfl
    | cons q qsx ih =>
      simp only [List.map_cons, List.flatten_cons]
      rw [hzero q (by simp)]
      rw [ih (fun q hq => hzero q (by simp [hq]))]
      rfl
  rw [hf]
  refine ⟨rfl, rfl, rfl, chosenBriefDoc_fallback h2 [] w d, rfl, rfl, rfl, ?_⟩
  intro n hn
  have h15 : ¬ n > 15 := by omega
  have h8 : ¬ n > 8 := by omega
  have h3 : ¬ n > 3 := by omega
  exact ⟨by simp [fallbackRiskLevel, h15, h8, h3],
    by simp [fallbackRiskScore, h15, h8, h3]⟩

/-- C9, witness: every query returns the empty array, the token is
missing, and the run reports zero signals with the low/2 fallback
label. -/
theorem empty_run_low_risk_witness :
    fetchData envAllEmpty queries = [] ∧
    saveData (fetchData envAllEmpty queries) = [] ∧
    (generateBrief none synthEnvFail
      (some (saveData (fetchData envAllEmpty queries))) "2025-10-04" "2025-10-11").latest.eventCount = 0 ∧
    (generateBrief none synthEnvFail
      (some (saveData (fetchData envAllEmpty queries))) "2025-10-04" "2025-10-11").latest.briefDoc
      = .fallback (generateFallbackBrief [] "2025-10-04" "2025-10-11") ∧
    (generateFallbackBrief [] "2025-10-04" "2025-10-11").count = 0 ∧
    (generateFallbackBrief [] "2025-10-04" "2025-10-11").riskLevel = "low" ∧
    (generateFallbackBrief [] "2025-10-04" "2025-10-11").riskScore = 2 ∧
    (∀ n : Nat, n ≤ 3 → fallbackRiskLevel n = "low" ∧ fallbackRiskScore n = 2) :=
  empty_run_low_risk envAllEmpty queries none synthEnvFail
    "2025-10-04" "2025-10-11" (by decide) (by decide)

/-! ## Claim C10 -/

/-- C10: on an empty event list `extractEntities` returns
`{ entities: [], threats: [] }` with no model call and no `trend` or
`top_risk` field — unlike its parse-failure fallback, which sets trend
`"stable"` and a `top_risk` string after one call — so a zero-signal run's
structured brief record has no trend and no topRisk value. -/
theorem extractEntities_empty_events :
    (∀ call : ModelResult EntityData,
       extractEntities call [] = (⟨[], [], none, none⟩, 0)) ∧
    (∀ (call : ModelResult EntityData) (events : List TaggedSignal),
       events ≠ [] → call.failed = true →
       extractEntities call events
         = (⟨[], [], some "stable", some "Insufficient data for analysis"⟩, 1)) ∧
    (∀ (token : Option String) (env : SynthEnv) (w d : String)
       (file : Option (List TaggedSignal)),
       file = none ∨ file = some [] →
       (generateBrief token env file w d).latest.trend = none ∧
       (generateBrief token env file w d).latest.topRisk = none ∧
       (generateBrief token env file w d).pass1Calls = 0) := by
  refine ⟨fun call => rfl, ?_, ?_⟩
  · intro call events hne hfail
    have hlen : ¬ events.length = 0 := by
      intro h
      exact hne (List.length_eq_zero.mp h)
    cases call with
    | parsed d => simp [ModelResult.failed] at hfail
    | unavailable => simp [extractEntities, hlen]
    | unparseable => simp [extractEntities, hlen]
  · rintro token env w d file (rfl | rfl) <;> exact ⟨rfl, rfl, rfl⟩

/-- C10, witness: the parse-failure fallback on a one-event list, and the
zero-signal run's record with no trend/topRisk and zero pass-1 calls. -/
theorem extractEntities_empty_events_witness :
    extractEntities ModelResult.unparseable [sigJan1]
      = (⟨[], [], some "stable", some "Insufficient data for analysis"⟩, 1) ∧
    ((generateBrief none synthEnvFail none "2025-10-04" "2025-10-11").latest.trend = none ∧
     (generateBrief none synthEnvFail none "2025-10-04" "2025-10-11").latest.topRisk = none ∧
     (generateBrief none synthEnvFail none "2025-10-04" "2025-10-11").pass1Calls = 0) :=
  ⟨extractEntities_empty_events.2.1 .unparseable [sigJan1] (by decide) (by decide),
   extractEntities_empty_events.2.2 none synthEnvFail "2025-10-04" "2025-10-11"
     none (Or.inl rfl)⟩

end SanctionsRadar
